import Mathlib

/-!
Verification of the range-separation JK builder (pyscf/pbc/scf/rsjk.py)
against its natural-language specification.  The Python source is shallowly
embedded: numpy arrays become Lean lists or index functions, floats become
`ℚ` where the code only compares/filters them and `ℝ` where analytic facts
(π, sqrt, log) are at stake, raised exceptions become `Except` errors, and
external collaborators (integral engines, `gamma_point`, `get_coulG`) become
explicit parameters.
-/

namespace RSJK

/-! Basis primitives and `_split_cell` (rsjk.py lines 420-499).

Shell data lives in a flat parameter array `_env` addressed through the
per-shell slots `NPRIM_OF`, `NCTR_OF`, `PTR_EXP`, `PTR_COEFF`, as in
libcint: `nprim` exponents at `ptr_exp`, and `nctr` blocks of `nprim`
contraction coefficients at `ptr_coeff`.  The per-primitive kinetic-energy
cutoffs `kecuts[ib]` come from the external `_primitive_gto_cutoff`
collaborator and are a parameter `kes`. -/

/-- A row of the `_bas` table: the slots of one shell that `_split_cell`
reads and rewrites (rsjk.py lines 443-479). -/
structure BasRec where
  nprim : ℕ
  nctr : ℕ
  ptrExp : ℕ
  ptrCoeff : ℕ
deriving DecidableEq, Repr

/-- Read `n` consecutive entries of an env starting at `p` (numpy slice
`env[p:p+n]`). -/
def envSlice (env : List ℚ) (p n : ℕ) : List ℚ := (env.drop p).take n

/-- Overwrite the slice starting at `p` with `vals` (numpy slice assignment
`env[p:p+len(vals)] = vals`). -/
def envWrite (env : List ℚ) (p : ℕ) (vals : List ℚ) : List ℚ :=
  env.take p ++ vals ++ env.drop (p + vals.length)

/-- The exponent list a shell reads from an env (`cell.bas_exp`). -/
def shellExps (env : List ℚ) (b : BasRec) : List ℚ := envSlice env b.ptrExp b.nprim

/-- The contraction-coefficient block a shell reads from an env
(`cell._libcint_ctr_coeff`, flattened in libcint layout). -/
def shellCoeffs (env : List ℚ) (b : BasRec) : List ℚ :=
  envSlice env b.ptrCoeff (b.nprim * b.nctr)

/-- Positions of the steep primitives: `dense_mask = ke > ke_cut`
(rsjk.py line 446), as an index list in primitive order. -/
def maskIdx (keCut : ℚ) (kes : List ℚ) : List ℕ :=
  (List.range kes.length).filter (fun i => decide (keCut < kes.getD i 0))

/-- Positions of the smooth primitives (`~dense_mask`). -/
def unmaskIdx (keCut : ℚ) (kes : List ℚ) : List ℕ :=
  (List.range kes.length).filter (fun i => !(decide (keCut < kes.getD i 0)))

/-- Outcome of the mixed branch of `_split_cell` for one shell: the two
`_bas` rows it appends, the updated local env copy, and the env the
returned cells actually carry. -/
structure MixedSplit where
  bas1 : BasRec
  bas2 : BasRec
  envLocal : List ℚ
  envOut : List ℚ
deriving DecidableEq, Repr

/-- The mixed branch of `_split_cell` (rsjk.py lines 460-489), faithfully
including its env handling.  `e1`/`e2` and `c1.T.ravel()`/`c2.T.ravel()`
are gathered from the masked and complementary primitive positions
(rsjk.py lines 461-466) and written into `_env`, which is the *local* copy
made at rsjk.py line 433 (`_env = cell._env.copy()`), at the original
offsets (rsjk.py lines 469-470); `bas1`/`bas2` get primitive counts and
pointers that presuppose this reordered layout (rsjk.py lines 472-479).
The function never attaches the local copy to the returned cells:
`cell_dense` and `cell_sparse` are shallow copies of the input cell
(rsjk.py lines 430-431) sharing the original unmodified `cell._env`, and
rsjk.py lines 494-499 assign only `_bas`, `rcut` and `_bas_idx`.  So
`envLocal` is discarded and `envOut`, the env the split shells are read
against, is the input env unchanged. -/
def splitMixedShell (env : List ℚ) (keCut : ℚ) (kes : List ℚ) (b : BasRec) : MixedSplit :=
  let idx1 := maskIdx keCut kes
  let idx2 := unmaskIdx keCut kes
  let e1 := idx1.map (fun i => env.getD (b.ptrExp + i) 0)
  let e2 := idx2.map (fun i => env.getD (b.ptrExp + i) 0)
  let c1T := (List.range b.nctr).flatMap
    (fun j => idx1.map (fun i => env.getD (b.ptrCoeff + j * b.nprim + i) 0))
  let c2T := (List.range b.nctr).flatMap
    (fun j => idx2.map (fun i => env.getD (b.ptrCoeff + j * b.nprim + i) 0))
  { bas1 := { nprim := idx1.length, nctr := b.nctr,
              ptrExp := b.ptrExp, ptrCoeff := b.ptrCoeff }
    bas2 := { nprim := b.nprim - idx1.length, nctr := b.nctr,
              ptrExp := b.ptrExp + e1.length, ptrCoeff := b.ptrCoeff + c1T.length }
    envLocal := envWrite (envWrite env b.ptrCoeff (c1T ++ c2T)) b.ptrExp (e1 ++ e2)
    envOut := env }

/-- A concrete mixed shell whose steep primitive is not first: env
`[1, 2, 10, 20]` holding exponents `[1, 2]` at offset 0 and coefficients
`[10, 20]` at offset 2 (`nprim = 2`, `nctr = 1`), per-primitive cutoffs
`[3, 12]`, threshold 5 — only the second primitive is steep. -/
def mixedExample : MixedSplit := splitMixedShell [1, 2, 10, 20] 5 [3, 12] ⟨2, 1, 0, 2⟩

/-! Argument prechecks of `get_jk` (rsjk.py lines 211-225) -/

/-- Maximum absolute elementwise difference between two k-point lists,
the embedding of `abs(kpts - self.kpts).max()` (rsjk.py line 218). -/
def maxAbsDiff (a b : List (List ℚ)) : ℚ :=
  ((a.zip b).map (fun r => ((r.1.zip r.2).map (fun q => |q.1 - q.2|)).foldr max 0)).foldr max 0

/-- The hard failures `get_jk` can raise before any numerical work. -/
inductive JkError where
  | notImplemented
  | kptsRuntimeError
deriving DecidableEq, Repr

/-- The argument validation prologue of `RangeSeparationJKBuilder.get_jk`
(rsjk.py lines 211-225): a per-call `omega` raises `NotImplementedError`;
a `kpts` argument farther than `1e-7` from the construction-time list raises
`RuntimeError`, otherwise `kpts = self.kpts` is substituted; a `kpts_band`
argument raises `NotImplementedError`.  On success the k-point list actually
used for the evaluation is returned. -/
def getJkPrecheck (selfKpts : List (List ℚ)) (kptsArg bandArg : Option (List (List ℚ)))
    (omegaArg : Option ℚ) : Except JkError (List (List ℚ)) :=
  if omegaArg.isSome then Except.error JkError.notImplemented
  else if (kptsArg.map (fun k => decide ((1 : ℚ) / 10 ^ 7 < maxAbsDiff k selfKpts))).getD false then
    Except.error JkError.kptsRuntimeError
  else if bandArg.isSome then Except.error JkError.notImplemented
  else Except.ok selfKpts

/-! Reciprocal-space kernels `_LongRangeAFT` / `_ShortRangeAFT`
(rsjk.py lines 341-395).  External collaborators are parameters: `coulG`
is the output of `pbctools.get_coulG` (already including the erf/erfc sign
through the `omega`/`-omega` argument), `GvZero i` states whether row `i`
of `Gv` is the zero vector (`np.all(Gv == 0, axis=1)`), `kws` are the
`get_Gv_weights` weights, and `isGamma` is the value of the external
`gamma_point(kpt)` predicate. -/

/-- The values the `exxdiv` / `exx` argument takes in pyscf (`None`/`False`
are both falsy). -/
inductive ExxDiv where
  | noneDiv
  | ewald
  | vcutWs
  | vcutSph
deriving DecidableEq, Repr

/-- Python truthiness of the `exx` argument. -/
def ExxDiv.truthy : ExxDiv → Bool
  | ExxDiv.noneDiv => false
  | _ => true

/-- The guard `not exx or exx == 'ewald'` (rsjk.py lines 361 and 389). -/
def g0Cond (exx : ExxDiv) : Bool := (!exx.truthy) || (exx == ExxDiv.ewald)

/-- Core of `_LongRangeAFT.weighted_coulG` after the `cell.omega` guard
(rsjk.py lines 354-367): when the guard `not exx or exx == 'ewald'` holds at
a Gamma-point k, subtract `pi/omega**2` at every `G = 0` row, then multiply
by the weights. -/
noncomputable def lrCoulGFun (omega : ℝ) (isGamma : Bool) (exx : ExxDiv) (coulG : ℕ → ℝ)
    (GvZero : ℕ → Bool) (kws : ℕ → ℝ) : ℕ → ℝ := fun i =>
  (if (g0Cond exx && isGamma) && GvZero i then coulG i - Real.pi / omega ^ 2
   else coulG i) * kws i

/-- Core of `_ShortRangeAFT.weighted_coulG` after the `cell.omega` guard
(rsjk.py lines 382-395): identical guard, but `pi/omega**2` is added at the
`G = 0` rows (and `get_coulG` was called with `-omega`). -/
noncomputable def srCoulGFun (omega : ℝ) (isGamma : Bool) (exx : ExxDiv) (coulG : ℕ → ℝ)
    (GvZero : ℕ → Bool) (kws : ℕ → ℝ) : ℕ → ℝ := fun i =>
  (if (g0Cond exx && isGamma) && GvZero i then coulG i + Real.pi / omega ^ 2
   else coulG i) * kws i

/-- The `RuntimeError` message shared by both kernels (rsjk.py lines 351 and 379). -/
def rshErrorMsg : String :=
  "RangeSeparationJKBuilder cannot be used to evaluate the long-range HF exchange in RSH functional"

/-- Embedding of `_LongRangeAFT.weighted_coulG` (rsjk.py lines 346-367): raise when the
cell carries its own non-zero range-separation parameter, else return the
adjusted weighted kernel. -/
noncomputable def lrWeightedCoulG (cellOmega : ℚ) (omega : ℝ) (isGamma : Bool) (exx : ExxDiv)
    (coulG : ℕ → ℝ) (GvZero : ℕ → Bool) (kws : ℕ → ℝ) : Except String (ℕ → ℝ) :=
  if cellOmega = 0 then Except.ok (lrCoulGFun omega isGamma exx coulG GvZero kws)
  else Except.error rshErrorMsg

/-- Embedding of `_ShortRangeAFT.weighted_coulG` (rsjk.py lines 374-395). -/
noncomputable def srWeightedCoulG (cellOmega : ℚ) (omega : ℝ) (isGamma : Bool) (exx : ExxDiv)
    (coulG : ℕ → ℝ) (GvZero : ℕ → Bool) (kws : ℕ → ℝ) : Except String (ℕ → ℝ) :=
  if cellOmega = 0 then Except.ok (srCoulGFun omega isGamma exx coulG GvZero kws)
  else Except.error rshErrorMsg

/-! Supercell construction: `_make_extended_mole` (rsjk.py lines 397-418) and the smoothness
classification in `build` (rsjk.py lines 162-173).

The supercell candidate list enumerates every (lattice image, k-mesh image,
merged-basis shell) triple in the order `_build_supcell_` lays shells out:
lattice image outermost, k image next, shell index fastest.  The overlap
collaborator (`int1e_ovlp` on the s-character-reduced copy) is a parameter
`ov` giving, per candidate, the column of overlaps against the un-translated
reference shells. -/

/-- Filter a list by a parallel boolean mask, the embedding of numpy fancy
indexing `arr.ravel()[bas_mask]`. -/
def maskFilter {α : Type} (mask : List Bool) (l : List α) : List α :=
  ((mask.zip l).filter (fun r => r.1)).map (fun r => r.2)

/-- Every (lattice image, k image, shell) candidate triple, in supercell
shell order (`LKs.reshape(nimgs*nk, 3)` at rsjk.py lines 400-407: image
major, shell fastest). -/
def candTriples (nimgs nk nbas : ℕ) : List (ℕ × ℕ × ℕ) :=
  (List.range nimgs).flatMap (fun i =>
    (List.range nk).flatMap (fun k =>
      (List.range nbas).map (fun b => (i, k, b))))

/-- The screening magnitude `s0max = abs(s0).max(axis=0)` (rsjk.py line 413) for one candidate
column, the maximum overlap magnitude against the reference shells. -/
def s0max (col : List ℚ) : ℚ := (col.map (fun x => |x|)).foldr max 0

/-- The retention mask `bas_mask = s0max > precision` (rsjk.py line 414), one flag per
candidate in candidate order. -/
def basMask (nimgs nk nbas : ℕ) (prec : ℚ) (ov : ℕ × ℕ × ℕ → List ℚ) : List Bool :=
  (candTriples nimgs nk nbas).map (fun t => decide (prec < s0max (ov t)))

/-- The retained supercell shells: `supmol._bas = supmol._bas[bas_mask]`
(rsjk.py line 415). -/
def retainedTriples (nimgs nk nbas : ℕ) (prec : ℚ) (ov : ℕ × ℕ × ℕ → List ℚ) :
    List (ℕ × ℕ × ℕ) :=
  maskFilter (basMask nimgs nk nbas prec ov) (candTriples nimgs nk nbas)

/-- The composite BvK shell id `k*nbas + b` a candidate carries
(`np.arange(nk*nbas).reshape(1,nk,nbas)` repeated over images, rsjk.py
line 404). -/
def bvkIdOf (nbas : ℕ) (t : ℕ × ℕ × ℕ) : ℕ := t.2.1 * nbas + t.2.2

/-- The retained id array `supmol.bvkcell_shl_id = bvkcell_shl_id.ravel()[bas_mask]` (rsjk.py
line 416). -/
def retainedIds (nimgs nk nbas : ℕ) (prec : ℚ) (ov : ℕ × ℕ × ℕ → List ℚ) : List ℕ :=
  maskFilter (basMask nimgs nk nbas prec ov) ((candTriples nimgs nk nbas).map (bvkIdOf nbas))

/-- Smoothness class of a candidate: its merged-basis shell index lies in
the sparse half, `smooth_mask[:, cell_dense.nbas:] = True` (rsjk.py
line 170). -/
def smoothOf (ndense : ℕ) (t : ℕ × ℕ × ℕ) : Bool := decide (ndense ≤ t.2.2)

/-- The retained flag array `smooth_mask = smooth_mask.ravel()[bas_mask]` (rsjk.py line 171): the
per-candidate smoothness flags filtered by the same retention mask. -/
def retainedSmooth (nimgs nk nbas ndense : ℕ) (prec : ℚ) (ov : ℕ × ℕ × ℕ → List ℚ) :
    List Bool :=
  maskFilter (basMask nimgs nk nbas prec ov) ((candTriples nimgs nk nbas).map (smoothOf ndense))

/-! Range-separation parameter selection in `build` (rsjk.py lines 145-147) -/

/-- The attenuation ratio `tau = self.omega / (self.omega**2 + eta/2)**.5` (rsjk.py line 145),
with Python float `** .5` embedded as the real power `^ (0.5 : ℝ)`. -/
noncomputable def buildTau (omega eta : ℝ) : ℝ :=
  omega / (omega ^ 2 + eta / 2) ^ ((0.5 : ℝ))

/-- The closed-form update
`rcut_sr = (-log(tol*tau*(eta*rcut_sr)**2/pi) / (tau**2*eta/2))**.5`
(rsjk.py line 147) as a function of the previous `rcut_sr` value. -/
noncomputable def rcutUpdate (tol tau eta r : ℝ) : ℝ :=
  (-Real.log (tol * tau * (eta * r) ^ 2 / Real.pi) / (tau ^ 2 * eta / 2)) ^ ((0.5 : ℝ))

/-- The `rcut_sr` computation of `build` (rsjk.py lines 145-147): the fixed
initial guess `10` followed by a single substitution of the update. -/
noncomputable def buildRcutSr (tol omega eta : ℝ) : ℝ :=
  let tau := buildTau omega eta
  let r0 : ℝ := 10
  rcutUpdate tol tau eta r0

/-! Output shapes of `get_jk` (rsjk.py lines 246-250 and 320-339).

The claimed property is purely about array shapes, so the evaluation is
embedded at shape level: a shape is the list of axis lengths. -/

/-- Shape of the J/K arrays `get_jk` returns.  Mirrors, step by step:
`dm = dm_kpts.reshape(-1,nkpts,nao,nao)` when `dm_kpts.ndim != 4`
(line 247), `n_dm = dm.shape[0]` (line 250), the contraction output
`einsum('nuRv,Rk->nkuv', vj, expRk)` of shape `(n_dm, nkpts, nao, nao)`
(lines 323/331), and the collapse `vj = vj[0]` when `dm_kpts.ndim == 3`
(lines 326-327/334-335). -/
def getJkOutShape (nkpts nao : ℕ) (dmShape : List ℕ) : List ℕ :=
  let dm4 := if dmShape.length = 4 then dmShape
             else [dmShape.prod / (nkpts * nao * nao), nkpts, nao, nao]
  let nDm := dm4.headD 0
  let contracted := [nDm, nkpts, nao, nao]
  if dmShape.length = 3 then contracted.drop 1 else contracted

/-! Builder state and `reset` (rsjk.py lines 39-68 and 82-86).

Field contents are irrelevant to the frame property, so each externally
produced object keeps an abstract type parameter. -/

/-- The mutable per-instance fields of `RangeSeparationJKBuilder` that
`__init__` creates and `build` fills in (rsjk.py lines 39-68). -/
structure BuilderState (C K M V O B P I A S : Type) where
  cell : C
  kpts : K
  omega : Option ℝ
  mesh : Option M
  ke_cutoff : Option ℝ
  vhfopt : Option V
  ovlp_mask : Option O
  bvkcell : Option B
  phase : Option P
  bvkcell_shl_id : Option I
  cell_dense : Option C
  cell_sparse : Option C
  lr_aft : Option A
  sr_aft : Option A
  supmol : Option S

/-- Embedding of `RangeSeparationJKBuilder.reset` (rsjk.py lines 82-86): replace `cell`
when a new one is given and clear the cached supercell. -/
def BuilderState.reset {C K M V O B P I A S : Type}
    (st : BuilderState C K M V O B P I A S) (cell : Option C) :
    BuilderState C K M V O B P I A S :=
  let st1 := match cell with
    | some c => { st with cell := c }
    | none => st
  { st1 with supmol := none }

end RSJK

/-! Helper lemmas -/

namespace RSJK

/-- Comparing a k-point list with itself gives a zero maximum difference. -/
theorem maxAbsDiff_self (k : List (List ℚ)) : maxAbsDiff k k = 0 := by
  unfold maxAbsDiff
  induction k with
  | nil => rfl
  | cons r t ih =>
    simp only [List.zip_cons_cons, List.map_cons, List.foldr_cons] at *
    rw [ih]
    have hr : ((r.zip r).map (fun q => |q.1 - q.2|)).foldr max 0 = 0 := by
      induction r with
      | nil => rfl
      | cons x s ihr =>
        simp only [List.zip_cons_cons, List.map_cons, List.foldr_cons] at *
        rw [ihr]
        simp
    rw [hr]
    simp

theorem maskFilter_cons {α : Type} (b : Bool) (m : List Bool) (a : α) (l : List α) :
    maskFilter (b :: m) (a :: l) = if b then a :: maskFilter m l else maskFilter m l := by
  cases b <;> simp [maskFilter]

/-- Masking commutes with mapping: filtering two parallel arrays by the same
mask keeps them aligned. -/
theorem maskFilter_map {α β : Type} (f : α → β) (m : List Bool) :
    ∀ l : List α, maskFilter m (l.map f) = (maskFilter m l).map f := by
  induction m with
  | nil => intro l; simp [maskFilter]
  | cons b t ih =>
    intro l
    cases l with
    | nil => simp [maskFilter]
    | cons a s =>
      simp only [List.map_cons, maskFilter_cons]
      cases b <;> simp [ih s]

/-- Masking by a pointwise predicate of the entries is filtering. -/
theorem maskFilter_of_map_pred {α : Type} (p : α → Bool) :
    ∀ l : List α, maskFilter (l.map p) l = l.filter p := by
  intro l
  induction l with
  | nil => rfl
  | cons a s ih =>
    simp only [List.map_cons, maskFilter_cons, List.filter_cons]
    cases h : p a <;> simp [h, ih]

end RSJK

/-! Claim theorems -/

namespace RSJK

/-- Claim C1, counterexample to the literal statement: the k-point list
`[[1e-8, 0, 0]]` differs from the construction-time list `[[0, 0, 0]]`, yet
`get_jk` accepts the call and silently substitutes the construction-time
list (rsjk.py lines 218-220 tolerate differences up to `1e-7`). -/
theorem C1_kpts_counterexample :
    ([[1 / 100000000, 0, 0]] : List (List ℚ)) ≠ [[0, 0, 0]] ∧
    getJkPrecheck [[0, 0, 0]] (some [[1 / 100000000, 0, 0]]) none none =
      Except.ok [[0, 0, 0]] := by
  constructor
  · norm_num
  · norm_num [getJkPrecheck, maxAbsDiff, List.zip_cons_cons, abs_of_nonneg]

/-- Claim C1 (amended): `get_jk` raises `NotImplementedError` whenever a
per-call omega is supplied, and whenever a band k-point list is supplied
(even alongside an accepted k-point list); a supplied k-point list whose
maximum absolute difference from the construction-time list exceeds `1e-7`
raises `RuntimeError`; none of these failing calls returns a result. -/
theorem C1_hard_failures (selfKpts kArg bandK : List (List ℚ))
    (kA bA : Option (List (List ℚ))) (w : ℚ)
    (h : (1 : ℚ) / 10 ^ 7 < maxAbsDiff kArg selfKpts) :
    getJkPrecheck selfKpts kA bA (some w) = Except.error JkError.notImplemented ∧
    getJkPrecheck selfKpts (some kArg) bA none = Except.error JkError.kptsRuntimeError ∧
    getJkPrecheck selfKpts none (some bandK) none = Except.error JkError.notImplemented ∧
    getJkPrecheck selfKpts (some selfKpts) (some bandK) none =
      Except.error JkError.notImplemented := by
  have hc : decide ((1 : ℚ) / 10 ^ 7 < maxAbsDiff kArg selfKpts) = true := decide_eq_true h
  refine ⟨?_, ?_, ?_, ?_⟩
  · simp [getJkPrecheck]
  · simp [getJkPrecheck]
    intro hle
    rw [one_div] at h
    exact absurd h (not_lt.mpr hle)
  · simp [getJkPrecheck]
  · simp [getJkPrecheck, maxAbsDiff_self]

/-- Witness for the amended claim C1 at concrete arguments. -/
theorem C1_hard_failures_witness :
    (1 : ℚ) / 10 ^ 7 < maxAbsDiff [[1, 0, 0]] [[0, 0, 0]] ∧
    (getJkPrecheck [[0, 0, 0]] none none (some 1) = Except.error JkError.notImplemented ∧
     getJkPrecheck [[0, 0, 0]] (some [[1, 0, 0]]) none none =
       Except.error JkError.kptsRuntimeError ∧
     getJkPrecheck [[0, 0, 0]] none (some [[0, 0, 0]]) none =
       Except.error JkError.notImplemented ∧
     getJkPrecheck [[0, 0, 0]] (some [[0, 0, 0]]) (some [[0, 0, 0]]) none =
       Except.error JkError.notImplemented) :=
  ⟨by norm_num [maxAbsDiff, List.zip_cons_cons],
   C1_hard_failures [[0, 0, 0]] [[1, 0, 0]] [[0, 0, 0]] none none 1
     (by norm_num [maxAbsDiff, List.zip_cons_cons])⟩

/-- Claim C2, code-bug exhibit at a concrete mixed shell whose steep
primitive is not the first one.  First conjunct: read against the
reordered *local* env copy (rsjk.py lines 433, 469-470), the split shells
do realize the claimed partition — the dense shell carries exactly the
steep primitive (exponent 2, coefficient 20) and the sparse shell the
smooth one — which is what the code evidently intends.  Second conjunct:
that local copy is discarded, the returned cells keep the original env
unchanged, and read against it the dense shell's pointers deliver the
smooth primitive's data (exponent 1, coefficient 10) instead of the steep
primitive's, so the partition the claim (and spec) state is not what the
program computes. -/
theorem C2_split_cell_env_bug :
    (shellExps mixedExample.envLocal mixedExample.bas1 = [2] ∧
     shellCoeffs mixedExample.envLocal mixedExample.bas1 = [20] ∧
     shellExps mixedExample.envLocal mixedExample.bas2 = [1] ∧
     shellCoeffs mixedExample.envLocal mixedExample.bas2 = [10]) ∧
    (mixedExample.envOut = [1, 2, 10, 20] ∧
     shellExps mixedExample.envOut mixedExample.bas1 = [1] ∧
     shellCoeffs mixedExample.envOut mixedExample.bas1 = [10] ∧
     shellExps mixedExample.envOut mixedExample.bas1 ≠ [2]) := by decide

/-- Claim C3: for every positive omega, at a Gamma-point evaluation with a
`G = 0` row present (and the shared guard `not exx or exx == 'ewald'`
active), the `+pi/omega**2` adjustment of the short-range-complement kernel
and the `-pi/omega**2` adjustment of the long-range kernel cancel exactly:
the sum of the two kernels' outputs at the `G = 0` row is the unadjusted
weighted sum. -/
theorem C3_g0_cancellation (omega : ℝ) (exx : ExxDiv) (cLR cSR : ℕ → ℝ)
    (GvZero : ℕ → Bool) (kws : ℕ → ℝ) (i : ℕ) (homega : 0 < omega)
    (hG : GvZero i = true) (hx : g0Cond exx = true) :
    lrCoulGFun omega true exx cLR GvZero kws i +
      srCoulGFun omega true exx cSR GvZero kws i = (cLR i + cSR i) * kws i := by
  simp only [lrCoulGFun, srCoulGFun, hG, hx, Bool.and_self, Bool.and_true, if_true]
  ring

/-- Witness for claim C3 at omega 1, G index 0, unit weights. -/
theorem C3_g0_cancellation_witness :
    (0 : ℝ) < 1 ∧
    lrCoulGFun 1 true ExxDiv.noneDiv (fun _ => 2) (fun _ => true) (fun _ => 7) 0 +
      srCoulGFun 1 true ExxDiv.noneDiv (fun _ => 3) (fun _ => true) (fun _ => 7) 0 =
      ((fun _ => (2 : ℝ)) 0 + (fun _ => (3 : ℝ)) 0) * (fun _ => (7 : ℝ)) 0 :=
  ⟨one_pos, C3_g0_cancellation 1 ExxDiv.noneDiv (fun _ => 2) (fun _ => 3)
    (fun _ => true) (fun _ => 7) 0 one_pos rfl rfl⟩

/-- Claim C4, counterexample to the literal statement: with the Ewald
exchange-divergence treatment requested (`exxdiv='ewald'`), the long-range
kernel still modifies the Gamma-point `G = 0` entry (the guard at rsjk.py
line 361 is `not exx or exx == 'ewald'`): with base kernel value 0 and unit
weight it returns `-pi`, not the unmodified `0 * 1`. -/
theorem C4_ewald_counterexample :
    lrCoulGFun 1 true ExxDiv.ewald (fun _ => 0) (fun _ => true) (fun _ => 1) 0 ≠
      (fun _ => (0 : ℝ)) 0 * (fun _ => (1 : ℝ)) 0 := by
  simp only [lrCoulGFun, g0Cond, ExxDiv.truthy]
  norm_num [Real.pi_ne_zero]

/-- Claim C4 (amended): at a Gamma-point `G = 0` row, the long-range kernel
subtracts `pi/omega**2` exactly when the exchange-divergence argument is
falsy or equals `'ewald'`; the entry is left unmodified only for a truthy
non-ewald treatment (e.g. `vcut_ws`). -/
theorem C4_g0_subtraction_rule (omega : ℝ) (exx : ExxDiv) (coulG : ℕ → ℝ)
    (GvZero : ℕ → Bool) (kws : ℕ → ℝ) (i : ℕ) (hG : GvZero i = true) :
    lrCoulGFun omega true exx coulG GvZero kws i =
      (if exx.truthy = false ∨ exx = ExxDiv.ewald then
        coulG i - Real.pi / omega ^ 2
       else coulG i) * kws i := by
  cases exx <;> simp [lrCoulGFun, g0Cond, ExxDiv.truthy, hG]

/-- Witness for the amended claim C4 at the `vcut_ws` treatment, where the
`G = 0` entry passes through unmodified. -/
theorem C4_g0_subtraction_rule_witness :
    lrCoulGFun 1 true ExxDiv.vcutWs (fun _ => 2) (fun _ => true) (fun _ => 1) 0 =
      (if ExxDiv.truthy ExxDiv.vcutWs = false ∨ ExxDiv.vcutWs = ExxDiv.ewald then
        (fun _ => (2 : ℝ)) 0 - Real.pi / 1 ^ 2
       else (fun _ => (2 : ℝ)) 0) * (fun _ => (1 : ℝ)) 0 :=
  C4_g0_subtraction_rule 1 ExxDiv.vcutWs (fun _ => 2) (fun _ => true) (fun _ => 1) 0 rfl

/-- Claim C5: a cell with its own non-zero embedded range-separation
parameter is rejected by both kernels' `weighted_coulG`, for every
kpt/exx/mesh input (all abstracted into the remaining parameters). -/
theorem C5_reject_rsh_cell (cellOmega : ℚ) (omega : ℝ) (isGamma : Bool)
    (exx : ExxDiv) (cLR cSR : ℕ → ℝ) (GvZero : ℕ → Bool) (kws : ℕ → ℝ)
    (h : cellOmega ≠ 0) :
    lrWeightedCoulG cellOmega omega isGamma exx cLR GvZero kws =
      Except.error rshErrorMsg ∧
    srWeightedCoulG cellOmega omega isGamma exx cSR GvZero kws =
      Except.error rshErrorMsg := by
  constructor <;> simp [lrWeightedCoulG, srWeightedCoulG, h]

/-- Witness for claim C5 at `cell.omega = 1/2`. -/
theorem C5_reject_rsh_cell_witness :
    ((1 : ℚ) / 2 ≠ 0) ∧
    (lrWeightedCoulG (1 / 2) 1 true ExxDiv.noneDiv (fun _ => 0) (fun _ => true)
       (fun _ => 1) = Except.error rshErrorMsg ∧
     srWeightedCoulG (1 / 2) 1 true ExxDiv.noneDiv (fun _ => 0) (fun _ => true)
       (fun _ => 1) = Except.error rshErrorMsg) :=
  ⟨by norm_num, C5_reject_rsh_cell (1 / 2) 1 true ExxDiv.noneDiv (fun _ => 0)
    (fun _ => 0) (fun _ => true) (fun _ => 1) (by norm_num)⟩

/-- Claim C6: a candidate supercell shell is retained exactly when its
maximum s-character-reduced overlap magnitude against the reference shells
exceeds the precision threshold (so every candidate falling below the
threshold is dropped), and the filtered id and smoothness arrays stay
aligned with the filtered shell list: every retained shell keeps its
composite BvK shell id `k*nbas + b` and its smoothness class
`ndense ≤ b` (merged-basis index in the sparse half). -/
theorem C6_supercell_screening (nimgs nk nbas ndense : ℕ) (prec : ℚ)
    (ov : ℕ × ℕ × ℕ → List ℚ) (t : ℕ × ℕ × ℕ)
    (ht : t ∈ candTriples nimgs nk nbas) :
    (t ∈ retainedTriples nimgs nk nbas prec ov ↔ prec < s0max (ov t)) ∧
    retainedIds nimgs nk nbas prec ov =
      (retainedTriples nimgs nk nbas prec ov).map (bvkIdOf nbas) ∧
    retainedSmooth nimgs nk nbas ndense prec ov =
      (retainedTriples nimgs nk nbas prec ov).map (smoothOf ndense) := by
  refine ⟨?_, ?_, ?_⟩
  · unfold retainedTriples basMask
    rw [maskFilter_of_map_pred (fun t => decide (prec < s0max (ov t)))
      (candTriples nimgs nk nbas)]
    simp [List.mem_filter, ht]
  · unfold retainedIds retainedTriples
    exact maskFilter_map (bvkIdOf nbas) _ _
  · unfold retainedSmooth retainedTriples
    exact maskFilter_map (smoothOf ndense) _ _

/-- Witness for claim C6: one lattice image, two k images, two merged
shells (one dense, one sparse), threshold 2; the candidate `(0, 1, 1)` has
overlap column `[1]`, falls below the threshold, and is dropped. -/
theorem C6_supercell_screening_witness :
    ((0, 1, 1) : ℕ × ℕ × ℕ) ∈ candTriples 1 2 2 ∧
    ((((0, 1, 1) : ℕ × ℕ × ℕ) ∈
        retainedTriples 1 2 2 2 (fun t => if t.2.2 = 0 then [3] else [1]) ↔
      (2 : ℚ) < s0max ((fun t : ℕ × ℕ × ℕ => if t.2.2 = 0 then [(3 : ℚ)] else [1])
        (0, 1, 1))) ∧
     retainedIds 1 2 2 2 (fun t => if t.2.2 = 0 then [3] else [1]) =
       (retainedTriples 1 2 2 2 (fun t => if t.2.2 = 0 then [3] else [1])).map
         (bvkIdOf 2) ∧
     retainedSmooth 1 2 2 1 2 (fun t => if t.2.2 = 0 then [3] else [1]) =
       (retainedTriples 1 2 2 2 (fun t => if t.2.2 = 0 then [3] else [1])).map
         (smoothOf 1)) :=
  ⟨by decide, C6_supercell_screening 1 2 2 1 2
    (fun t => if t.2.2 = 0 then [3] else [1]) (0, 1, 1) (by decide)⟩

/-- Claim C7: in `build`, the attenuation ratio is
`tau = omega / sqrt(omega**2 + eta/2)` (the Python `** .5` agrees with the
real square root on the non-negative radicand), and `rcut_sr` is exactly
one substitution of the closed-form update applied to the fixed initial
guess 10, with no further iteration. -/
theorem C7_tau_and_single_update (tol omega eta : ℝ) (h1 : 0 < omega)
    (h2 : 0 ≤ eta) :
    buildTau omega eta = omega / Real.sqrt (omega ^ 2 + eta / 2) ∧
    buildRcutSr tol omega eta = rcutUpdate tol (buildTau omega eta) eta 10 := by
  constructor
  · unfold buildTau
    rw [show ((0.5 : ℝ)) = 1 / 2 by norm_num, ← Real.sqrt_eq_rpow]
  · rfl

/-- Witness for claim C7 at tol 1, omega 1, eta 2. -/
theorem C7_tau_and_single_update_witness :
    ((0 : ℝ) < 1 ∧ (0 : ℝ) ≤ 2) ∧
    (buildTau 1 2 = 1 / Real.sqrt (1 ^ 2 + 2 / 2) ∧
     buildRcutSr 1 1 2 = rcutUpdate 1 (buildTau 1 2) 2 10) :=
  ⟨⟨by norm_num, by norm_num⟩,
   C7_tau_and_single_update 1 1 2 (by norm_num) (by norm_num)⟩

/-- Claim C8: a batched 4-dimensional density input of shape
`(n_dm, nkpts, nao, nao)` yields J/K of the same shape, and a single
3-dimensional density `(nkpts, nao, nao)` yields the collapsed shape
`(nkpts, nao, nao)` — the leading density axis is dropped exactly in the
3-dimensional case. -/
theorem C8_output_shapes (n nkpts nao : ℕ) (hk : 0 < nkpts) (ha : 0 < nao) :
    getJkOutShape nkpts nao [n, nkpts, nao, nao] = [n, nkpts, nao, nao] ∧
    getJkOutShape nkpts nao [nkpts, nao, nao] = [nkpts, nao, nao] := by
  constructor
  · simp [getJkOutShape]
  · have hprod : ([nkpts, nao, nao] : List ℕ).prod = nkpts * nao * nao := by
      simp [List.prod_cons]
      ring
    have hpos : 0 < nkpts * nao * nao := by positivity
    simp [getJkOutShape, hprod, Nat.div_self hpos]

/-- Witness for claim C8 at two density matrices, two k-points, three
orbitals. -/
theorem C8_output_shapes_witness :
    (0 < 2 ∧ 0 < 3) ∧
    (getJkOutShape 2 3 [2, 2, 3, 3] = [2, 2, 3, 3] ∧
     getJkOutShape 2 3 [2, 3, 3] = [2, 3, 3]) :=
  ⟨⟨by decide, by decide⟩, C8_output_shapes 2 2 3 (by decide) (by decide)⟩

/-- Claim C9: a `kpts` argument whose maximum absolute elementwise
difference from the construction-time list is at most `1e-7` is accepted,
and the construction-time list is what the evaluation then uses. -/
theorem C9_kpts_tolerance (selfKpts kArg : List (List ℚ))
    (h : maxAbsDiff kArg selfKpts ≤ 1 / 10 ^ 7) :
    getJkPrecheck selfKpts (some kArg) none none = Except.ok selfKpts := by
  have hc : ¬ ((1 : ℚ) / 10 ^ 7 < maxAbsDiff kArg selfKpts) := not_lt.mpr h
  simp [getJkPrecheck, hc]
  rwa [one_div] at h

/-- Witness for claim C9: `[[1e-8, 0, 0]]` is within tolerance of
`[[0, 0, 0]]` and is accepted with the construction-time list substituted. -/
theorem C9_kpts_tolerance_witness :
    maxAbsDiff [[1 / 100000000, 0, 0]] [[0, 0, 0]] ≤ 1 / 10 ^ 7 ∧
    getJkPrecheck [[0, 0, 0]] (some [[1 / 100000000, 0, 0]]) none none =
      Except.ok [[0, 0, 0]] :=
  ⟨by norm_num [maxAbsDiff, List.zip_cons_cons, abs_of_nonneg],
   C9_kpts_tolerance [[0, 0, 0]] [[1 / 100000000, 0, 0]]
     (by norm_num [maxAbsDiff, List.zip_cons_cons, abs_of_nonneg])⟩

/-- Claim C10: `reset` replaces only the `cell` field (when a new cell is
given) and clears only the cached supercell; `kpts`, `omega`, `mesh`,
`ke_cutoff`, `vhfopt`, `ovlp_mask`, `bvkcell`, `phase`, `bvkcell_shl_id`,
`cell_dense`, `cell_sparse`, `lr_aft` and `sr_aft` are all left unchanged,
to be replaced only by the next `build`. -/
theorem C10_reset_frame {C K M V O B P I A S : Type}
    (st : BuilderState C K M V O B P I A S) (cArg : Option C) :
    (st.reset cArg).supmol = none ∧
    (st.reset cArg).cell = cArg.getD st.cell ∧
    (st.reset cArg).kpts = st.kpts ∧
    (st.reset cArg).omega = st.omega ∧
    (st.reset cArg).mesh = st.mesh ∧
    (st.reset cArg).ke_cutoff = st.ke_cutoff ∧
    (st.reset cArg).vhfopt = st.vhfopt ∧
    (st.reset cArg).ovlp_mask = st.ovlp_mask ∧
    (st.reset cArg).bvkcell = st.bvkcell ∧
    (st.reset cArg).phase = st.phase ∧
    (st.reset cArg).bvkcell_shl_id = st.bvkcell_shl_id ∧
    (st.reset cArg).cell_dense = st.cell_dense ∧
    (st.reset cArg).cell_sparse = st.cell_sparse ∧
    (st.reset cArg).lr_aft = st.lr_aft ∧
    (st.reset cArg).sr_aft = st.sr_aft := by
  cases cArg <;> simp [BuilderState.reset, Option.getD]

end RSJK
